import Mathlib

/-!
Verification of the image-scoring backend (harshh06/image-scoring-app).

The definitions below are a shallow embedding of the serving-time core:
* score post-processing (`predict_scores` in src/backend/app/utils.py),
* filename-derived identity resolution (the parsing part of
  `generate_thumbnail_and_metadata` in src/backend/app/utils.py),
* the persistent store of score records and the two write paths
  (`upload_image` and `update_score` in src/backend/main.py).

Python floats are modelled as rationals; Python's `round` (banker's
rounding, round-half-to-even) is modelled exactly by `pyRound`.
-/

namespace ImageScoring

/-- Python's built-in `round` on a rational: round to the nearest integer,
ties going to the even integer (banker's rounding). -/
def pyRound (q : ℚ) : ℤ :=
  if q - ⌊q⌋ < 1/2 then ⌊q⌋
  else if 1/2 < q - ⌊q⌋ then ⌊q⌋ + 1
  else if ⌊q⌋ % 2 = 0 then ⌊q⌋ else ⌊q⌋ + 1

/-- Embeds `round_quarter` from `predict_scores` (utils.py line 71-72):
`round(num * 4) / 4`. -/
def round_quarter (num : ℚ) : ℚ := (pyRound (num * 4) : ℚ) / 4

/-- Embeds `round(x, 2)` as used for the total (utils.py line 80). -/
def round2 (x : ℚ) : ℚ := (pyRound (x * 100) : ℚ) / 100

/-- Embeds `MAX_SCORES = np.array([4.0, 3.0, 3.0, 4.0])` (utils.py line 20). -/
def MAX_SCORES : Fin 4 → ℚ := ![4, 3, 3, 4]

/-- Embeds `MAX_FILE_SIZE = 100 * 1024 * 1024` (utils.py line 21). -/
def MAX_FILE_SIZE : ℕ := 100 * 1024 * 1024

/-- Embeds `np.clip(x, lo, hi)` componentwise on one entry. -/
def npClip (x lo hi : ℚ) : ℚ := min (max x lo) hi

/-- The four named score dimensions plus the derived total, as produced by
`predict_scores` and served in the response envelope. -/
structure Scores where
  architecture : ℚ
  atrophy : ℚ
  complexes : ℚ
  fibrosis : ℚ
  total : ℚ
deriving DecidableEq, Repr

/-- One dimension of the post-processing in `predict_scores` (utils.py lines
63-78): scale the oracle's raw output by the per-dimension maximum
(`normalized_scores * MAX_SCORES`), clamp into `[0, max_i]`
(`np.clip(actual_scores, 0, MAX_SCORES)`), and quarter-round. -/
def scoreDim (out : Fin 4 → ℚ) (i : Fin 4) : ℚ :=
  round_quarter (npClip (out i * MAX_SCORES i) 0 (MAX_SCORES i))

/-- Embeds the post-processing of `predict_scores` (utils.py lines 61-82).
The oracle's raw output vector is the parameter `out`; the model itself is an
external black box.  `Total` is `round(sum(scores.values()), 2)`. -/
def predict_scores (out : Fin 4 → ℚ) : Scores :=
  let a := scoreDim out 0
  let b := scoreDim out 1
  let c := scoreDim out 2
  let d := scoreDim out 3
  { architecture := a, atrophy := b, complexes := c, fibrosis := d,
    total := round2 (a + b + c + d) }

/-! Identity resolution: the parsing part of `generate_thumbnail_and_metadata`
(utils.py lines 126-139). -/

/-- Case-insensitive comparison of one character against an ASCII letter,
as `re.IGNORECASE` does for the ASCII pattern letters of `"Image"`. -/
def lowerEq (c d : Char) : Bool := c.toLower == d

/-- Tries to match the regex `Image(\d+)` (case-insensitively) at the head of
the character list; returns the matched (maximal) digit run of group 1. -/
def matchImageAt (l : List Char) : Option (List Char) :=
  match l with
  | c1 :: c2 :: c3 :: c4 :: c5 :: rest =>
    if lowerEq c1 'i' && lowerEq c2 'm' && lowerEq c3 'a' && lowerEq c4 'g' &&
       lowerEq c5 'e' then
      let ds := rest.takeWhile Char.isDigit
      if ds.isEmpty then none else some ds
    else none
  | _ => none

/-- Embeds `re.search(r"Image(\d+)", filename, re.IGNORECASE)` (utils.py line
134): the digit run of the leftmost match, if any. -/
def searchImageDigits : List Char → Option (List Char)
  | [] => none
  | c :: rest =>
    match matchImageAt (c :: rest) with
    | some ds => some ds
    | none => searchImageDigits rest

/-- Embeds Python's `str.zfill(2)`: left-pad with zeros to length 2. -/
def zfill2 (s : List Char) : List Char :=
  if 2 ≤ s.length then s else List.replicate (2 - s.length) '0' ++ s

/-- Embeds the `image_suffix` computation (utils.py lines 128, 134-137):
`raw_num[-2:] if len(raw_num) >= 2 else raw_num.zfill(2)`, defaulting to
`"00"` when the regex does not match. -/
def imageSuffix (filename : String) : String :=
  match searchImageDigits filename.data with
  | none => "00"
  | some raw =>
    if 2 ≤ raw.length then String.mk (raw.drop (raw.length - 2))
    else String.mk (zfill2 raw)

/-- Embeds Python's `str.split("-")` for the one-character separator `-`:
splits at every `-`, keeping empty segments (`"".split("-") == [""]`). -/
def splitDash : List Char → List (List Char)
  | [] => [[]]
  | c :: rest =>
    if c = '-' then [] :: splitDash rest
    else
      match splitDash rest with
      | [] => [[c]]
      | s :: ss => (c :: s) :: ss

/-- Embeds the `sample_id` computation (utils.py lines 127, 130-132):
split on `-`; if at least two parts exist, join the first two with `-`,
otherwise keep the default `"UNKNOWN"`. -/
def sampleId (filename : String) : String :=
  match splitDash filename.data with
  | p0 :: p1 :: _ => String.mk p0 ++ "-" ++ String.mk p1
  | _ => "UNKNOWN"

/-- The identity derived from a filename. -/
structure Identity where
  sample_id : String
  serial_number : String
deriving DecidableEq, Repr

/-- Embeds the whole parsing block of `generate_thumbnail_and_metadata`
(utils.py lines 126-139): `full_serial = f"{sample_id}-{image_suffix}"`. -/
def resolveIdentity (filename : String) : Identity :=
  let sid := sampleId filename
  { sample_id := sid, serial_number := sid ++ "-" ++ imageSuffix filename }

/-! A second formulation of identity resolution, written from the words of
spec.md §4.1, used only to compare with the source-derived `resolveIdentity`. -/

/-- Written from the spec (§4.1 step 1): split the filename on `-`; if at
least two segments exist, `sample_id = segment[0] + "-" + segment[1]`;
otherwise `sample_id = "UNKNOWN"`. -/
def sampleIdSpec (filename : String) : String :=
  let segs := splitDash filename.data
  if 2 ≤ segs.length then String.mk (segs.getD 0 []) ++ "-" ++ String.mk (segs.getD 1 [])
  else "UNKNOWN"

/-- Written from the spec (§4.1 step 2): if the pattern matched, keep the
last two digits of the digit run when its length is at least 2, otherwise
left-pad with leading zeros to length 2; `"00"` when there is no match. -/
def imageSuffixSpec (filename : String) : String :=
  match searchImageDigits filename.data with
  | none => "00"
  | some raw =>
    if 2 ≤ raw.length then String.mk ((raw.reverse.take 2).reverse)
    else String.mk (List.replicate (2 - raw.length) '0' ++ raw)

/-- Written from the spec (§4.1 step 3):
`serial_number = sample_id + "-" + image_suffix`. -/
def resolveIdentitySpec (filename : String) : Identity :=
  { sample_id := sampleIdSpec filename,
    serial_number := sampleIdSpec filename ++ "-" ++ imageSuffixSpec filename }

/-! The persisted record and the store. -/

/-- Modelled from the spec: the persisted `ScoreRecord` (spec §3, §6).  The
class `ImageScore` that `main.py` and the tests import from `app.models` is
absent from `src/backend/app/models.py` (which ships an unused `ImageEntry`),
so its shape is taken from the spec — surrogate `id`, natural key `filename`
with a unique index, derived `serial_number` and `sample_id`, four score
columns, derived `score_total`, and a store-set timestamp — with the column
names used by `main.py` and `tests/test_api.py`. -/
structure ImageScore where
  id : ℕ
  filename : String
  serial_number : String
  sample_id : String
  score_architecture : ℚ
  score_atrophy : ℚ
  score_complexes : ℚ
  score_fibrosis : ℚ
  score_total : ℚ
  timestamp : ℕ
deriving DecidableEq, Repr

/-- The relational store: the `images` rows plus the surrogate-key counter. -/
structure Store where
  nextId : ℕ
  rows : List ImageScore
deriving DecidableEq, Repr

/-- Embeds `db.query(ImageScore).filter(ImageScore.filename == fn).first()`
(main.py lines 134-136 and 197-199). -/
def findByFilename (s : Store) (fn : String) : Option ImageScore :=
  s.rows.find? (fun r => r.filename == fn)

/-- Embeds `insert(ImageScore).values(...).on_conflict_do_nothing(
index_elements=['filename'])` (main.py lines 180-194): with the unique index
on `filename`, the row is inserted only when no row with that filename
exists; on conflict nothing is written.  Returns the new store and whether
the row was inserted. -/
def insertIfAbsent (s : Store) (r : ImageScore) : Store × Bool :=
  if s.rows.any (fun q => q.filename == r.filename) then (s, false)
  else ({ nextId := s.nextId + 1, rows := s.rows ++ [{ r with id := s.nextId }] }, true)

/-- Embeds the cache-hit timestamp refresh
`existing_record.timestamp = datetime.now(); db.commit()` (main.py 162-164). -/
def touch (s : Store) (i : ℕ) (now : ℕ) : Store :=
  { s with rows := s.rows.map (fun r => if r.id = i then { r with timestamp := now } else r) }

/-! The upload operation (`upload_image`, main.py lines 105-216). -/

/-- Embeds `safe_filename.lower().endswith(('.tif', '.tiff'))`
(main.py line 114). -/
def hasTifExt (fn : String) : Bool :=
  let low := fn.data.map Char.toLower
  List.isSuffixOf ".tif".data low || List.isSuffixOf ".tiff".data low

/-- Embeds `safe_filename = file.filename or "unknown_file.tif"` (main.py
line 111): an empty (falsy) filename is replaced by the default. -/
def safeFilename (fn : String) : String :=
  if fn = "" then "unknown_file.tif" else fn

/-- One upload submission: the filename sent with the multipart upload, the
payload size in bytes, whether the payload bytes decode as an image (the
outcome of `PIL.Image.open` on them), and the raw output vector the loaded
model produces on the decoded image (the oracle is an external black box, so
its output is a parameter). -/
structure UploadRequest where
  filename : String
  size : ℕ
  decodable : Bool
  oracleOut : Fin 4 → ℚ

/-- The client-facing errors of the upload route (main.py lines 114-130,
203, 214): HTTP 400, 413, 503 and 500. -/
inductive UploadError where
  | invalidFormat
  | payloadTooLarge
  | serviceUnavailable
  | internalError
deriving DecidableEq, Repr

/-- The success envelope of the upload route (main.py lines 146-160 and
104-111 of utils.py, plus `result["db_id"] = final_record.id`).  The
`display_url` preview string is out of scope (spec §1). -/
structure Envelope where
  filename : String
  serial_number : String
  sample_id : String
  scores : Scores
  db_id : ℕ
deriving DecidableEq, Repr

/-- Result of one upload call. -/
inductive UploadResult where
  | err (e : UploadError)
  | ok (env : Envelope)
deriving DecidableEq, Repr

/-- The observable outcome of one upload call: the HTTP result, the store
after the call, and whether AI inference (`predict_scores`) was run. -/
structure UploadOutcome where
  result : UploadResult
  store : Store
  ranInference : Bool
deriving DecidableEq, Repr

/-- The cache-hit branch of `upload_image` (main.py lines 138-166): read the
bytes and regenerate the preview from them (`generate_thumbnail_and_metadata`
decodes the uploaded bytes, so undecodable bytes raise and are caught by the
generic handler as HTTP 500 with `db.rollback()`, before any write); build
the response from the stored record's scores but the freshly derived
identity; then refresh the record's timestamp. -/
def uploadHitPhase (fn : String) (rec : ImageScore) (decodable : Bool) (now : ℕ)
    (s : Store) : UploadOutcome :=
  if decodable = false then ⟨.err .internalError, s, false⟩
  else
    let ident := resolveIdentity fn
    ⟨.ok { filename := rec.filename, serial_number := ident.serial_number,
           sample_id := ident.sample_id,
           scores := { architecture := rec.score_architecture,
                       atrophy := rec.score_atrophy,
                       complexes := rec.score_complexes,
                       fibrosis := rec.score_fibrosis,
                       total := rec.score_total },
           db_id := rec.id },
     touch s rec.id now, false⟩

/-- The cache-miss branch of `upload_image` (main.py lines 168-206):
`extract_and_process_image` decodes the bytes (failure → HTTP 500 before any
write) and runs inference; then the atomic conflict-free insert, and a
re-query by filename whose row id becomes `db_id` of the locally built
result.  The store argument is the store at insert time: under a concurrent
race it may already contain the filename even though the earlier lookup
found nothing. -/
def uploadMissPhase (fn : String) (decodable : Bool) (out : Fin 4 → ℚ) (now : ℕ)
    (s : Store) : UploadOutcome :=
  if decodable = false then ⟨.err .internalError, s, false⟩
  else
    let ident := resolveIdentity fn
    let sc := predict_scores out
    let cand : ImageScore :=
      { id := 0, filename := fn, serial_number := ident.serial_number,
        sample_id := ident.sample_id, score_architecture := sc.architecture,
        score_atrophy := sc.atrophy, score_complexes := sc.complexes,
        score_fibrosis := sc.fibrosis, score_total := sc.total, timestamp := now }
    let res := insertIfAbsent s cand
    match findByFilename res.1 fn with
    | none => ⟨.err .internalError, res.1, true⟩
    | some final =>
      ⟨.ok { filename := fn, serial_number := ident.serial_number,
             sample_id := ident.sample_id, scores := sc, db_id := final.id },
       res.1, true⟩

/-- Embeds `upload_image` (main.py lines 105-216) for one sequential request:
validation (extension, size, model availability) before any repository
access, then the cache lookup dispatching to the hit or miss branch. -/
def upload (modelLoaded : Bool) (now : ℕ) (s : Store) (req : UploadRequest) :
    UploadOutcome :=
  let fn := safeFilename req.filename
  if hasTifExt fn = false then ⟨.err .invalidFormat, s, false⟩
  else if MAX_FILE_SIZE < req.size then ⟨.err .payloadTooLarge, s, false⟩
  else if modelLoaded = false then ⟨.err .serviceUnavailable, s, false⟩
  else
    match findByFilename s fn with
    | some rec => uploadHitPhase fn rec req.decodable now s
    | none => uploadMissPhase fn req.decodable req.oracleOut now s

/-! The correction operation (`update_score`, main.py lines 218-245). -/

/-- The correction payload: for each of the four named score dimensions of
`SCORE_FIELDS` (utils.py lines 23-28), optionally a new value. -/
structure ScorePayload where
  architecture : Option ℚ
  atrophy : Option ℚ
  complexes : Option ℚ
  fibrosis : Option ℚ
deriving DecidableEq, Repr

/-- Result of one correction call: HTTP 404, or 200 with `new_total`. -/
inductive UpdateResult where
  | notFound
  | updated (new_total : ℚ)
deriving DecidableEq, Repr

/-- The observable outcome of one correction call. -/
structure UpdateOutcome where
  result : UpdateResult
  store : Store
deriving DecidableEq, Repr

/-- Embeds the field loop and total recomputation of `update_score` (main.py
lines 229-240): each dimension present in the payload overwrites the stored
column (`setattr`), absent dimensions keep the stored value, and
`score_total` is recomputed as the sum of the four (post-update) columns. -/
def applyPayload (r : ImageScore) (p : ScorePayload) : ImageScore :=
  let a := p.architecture.getD r.score_architecture
  let b := p.atrophy.getD r.score_atrophy
  let c := p.complexes.getD r.score_complexes
  let d := p.fibrosis.getD r.score_fibrosis
  { r with score_architecture := a, score_atrophy := b, score_complexes := c,
           score_fibrosis := d, score_total := a + b + c + d }

/-- Embeds `update_score` (main.py lines 218-245): look up the record by
surrogate id, 404 when absent, otherwise apply the payload, commit, and
return `{"status": "updated", "new_total": record.score_total}`. -/
def update_score (s : Store) (db_id : ℕ) (p : ScorePayload) : UpdateOutcome :=
  match s.rows.find? (fun r => r.id == db_id) with
  | none => ⟨.notFound, s⟩
  | some r =>
    let r1 := applyPayload r p
    ⟨.updated r1.score_total,
     { s with rows := s.rows.map (fun q => if q.id = db_id then r1 else q) }⟩

/-- The row committed by the conflict-free insert when a fresh filename wins:
the candidate of `uploadMissPhase` with the store-assigned surrogate id. -/
def insertedRow (fn : String) (out : Fin 4 → ℚ) (now i : ℕ) : ImageScore :=
  { id := i, filename := fn,
    serial_number := (resolveIdentity fn).serial_number,
    sample_id := (resolveIdentity fn).sample_id,
    score_architecture := (predict_scores out).architecture,
    score_atrophy := (predict_scores out).atrophy,
    score_complexes := (predict_scores out).complexes,
    score_fibrosis := (predict_scores out).fibrosis,
    score_total := (predict_scores out).total,
    timestamp := now }

/-! Concrete records used by the witnesses and counterexamples. -/

/-- A stored record with all four dimensions 1 and total 4, as in the
repository test `test_update_existing_score`. -/
def demoRec : ImageScore :=
  { id := 1, filename := "a-b_Image01.tif", serial_number := "a-b_Image01.tif-01",
    sample_id := "a-b_Image01.tif", score_architecture := 1, score_atrophy := 1,
    score_complexes := 1, score_fibrosis := 1, score_total := 4, timestamp := 0 }

/-- A one-row store holding `demoRec`. -/
def demoStore : Store := ⟨2, [demoRec]⟩

/-! Helper lemmas about the rounding arithmetic. -/

theorem pyRound_intCast (n : ℤ) : pyRound (n : ℚ) = n := by
  unfold pyRound
  rw [Int.floor_intCast, sub_self]
  norm_num

theorem pyRound_nonneg (q : ℚ) (h : 0 ≤ q) : 0 ≤ pyRound q := by
  have h0 : 0 ≤ ⌊q⌋ := Int.floor_nonneg.mpr h
  unfold pyRound
  split_ifs <;> omega

theorem pyRound_le_int (q : ℚ) (m : ℤ) (h : q ≤ (m : ℚ)) : pyRound q ≤ m := by
  have hf : ⌊q⌋ ≤ m := by
    have h2 := Int.floor_le_floor h
    simpa using h2
  unfold pyRound
  split_ifs with h1 h2 h3
  · exact hf
  · have h4 : (⌊q⌋ : ℚ) < (m : ℚ) := by linarith
    have h5 : ⌊q⌋ < m := by exact_mod_cast h4
    omega
  · exact hf
  · have hh : (1 : ℚ)/2 ≤ q - ⌊q⌋ := le_of_not_lt h1
    have h4 : (⌊q⌋ : ℚ) < (m : ℚ) := by linarith
    have h5 : ⌊q⌋ < m := by exact_mod_cast h4
    omega

theorem round_quarter_nonneg (y : ℚ) (h : 0 ≤ y) : 0 ≤ round_quarter y := by
  unfold round_quarter
  have h4 : (0 : ℤ) ≤ pyRound (y * 4) := pyRound_nonneg _ (by linarith)
  have h5 : (0 : ℚ) ≤ (pyRound (y * 4) : ℚ) := by exact_mod_cast h4
  linarith

theorem round_quarter_le (y : ℚ) (k : ℤ) (h : y * 4 ≤ (k : ℚ)) :
    round_quarter y ≤ (k : ℚ)/4 := by
  unfold round_quarter
  have h4 := pyRound_le_int (y * 4) k h
  have h5 : ((pyRound (y * 4) : ℤ) : ℚ) ≤ (k : ℚ) := by exact_mod_cast h4
  linarith

/-- Every quarter-rounded value is an integer quarter. -/
theorem round_quarter_form (y : ℚ) : ∃ n : ℤ, round_quarter y = (n : ℚ)/4 :=
  ⟨pyRound (y * 4), rfl⟩

/-- `round(x, 2)` is exact on integer quarters. -/
theorem round2_int_quarter (m : ℤ) : round2 ((m : ℚ)/4) = (m : ℚ)/4 := by
  unfold round2
  have h : (m : ℚ)/4 * 100 = ((25 * m : ℤ) : ℚ) := by push_cast; ring
  rw [h, pyRound_intCast]
  push_cast
  ring

/-- The inference total is exactly the sum of the four quantized dimensions
(the `round(sum, 2)` is a no-op on a sum of quarters). -/
theorem predict_scores_total_eq (out : Fin 4 → ℚ) :
    (predict_scores out).total =
      (predict_scores out).architecture + (predict_scores out).atrophy +
      (predict_scores out).complexes + (predict_scores out).fibrosis := by
  obtain ⟨a, ha⟩ := round_quarter_form (npClip (out 0 * MAX_SCORES 0) 0 (MAX_SCORES 0))
  obtain ⟨b, hb⟩ := round_quarter_form (npClip (out 1 * MAX_SCORES 1) 0 (MAX_SCORES 1))
  obtain ⟨c, hc⟩ := round_quarter_form (npClip (out 2 * MAX_SCORES 2) 0 (MAX_SCORES 2))
  obtain ⟨d, hd⟩ := round_quarter_form (npClip (out 3 * MAX_SCORES 3) 0 (MAX_SCORES 3))
  show round2 (scoreDim out 0 + scoreDim out 1 + scoreDim out 2 + scoreDim out 3) =
    scoreDim out 0 + scoreDim out 1 + scoreDim out 2 + scoreDim out 3
  unfold scoreDim
  rw [ha, hb, hc, hd]
  have h : (a : ℚ)/4 + (b : ℚ)/4 + (c : ℚ)/4 + (d : ℚ)/4 = ((a + b + c + d : ℤ) : ℚ)/4 := by
    push_cast; ring
  rw [h, round2_int_quarter]

/-- Each inference score dimension is clamped into `[0, max_i]` and stays
there after quarter-rounding. -/
theorem scoreDim_bounds (out : Fin 4 → ℚ) (i : Fin 4) :
    0 ≤ scoreDim out i ∧ scoreDim out i ≤ MAX_SCORES i := by
  have hM : 0 ≤ MAX_SCORES i := by fin_cases i <;> norm_num [MAX_SCORES]
  obtain ⟨k, hk⟩ : ∃ k : ℤ, (k : ℚ) = MAX_SCORES i * 4 := by
    fin_cases i
    · exact ⟨16, by norm_num [MAX_SCORES]⟩
    · exact ⟨12, by norm_num [MAX_SCORES]⟩
    · exact ⟨12, by norm_num [MAX_SCORES]⟩
    · exact ⟨16, by norm_num [MAX_SCORES]⟩
  unfold scoreDim npClip
  constructor
  · exact round_quarter_nonneg _ (le_min (le_max_right _ _) hM)
  · have h1 : min (max (out i * MAX_SCORES i) 0) (MAX_SCORES i) ≤ MAX_SCORES i :=
      min_le_right _ _
    have h2 := round_quarter_le (min (max (out i * MAX_SCORES i) 0) (MAX_SCORES i)) k
      (by rw [hk]; linarith)
    calc round_quarter (min (max (out i * MAX_SCORES i) 0) (MAX_SCORES i))
        ≤ (k : ℚ)/4 := h2
      _ = MAX_SCORES i := by rw [hk]; ring

/-! Helper lemmas about identity resolution. -/

theorem sampleId_eq_spec (fn : String) : sampleId fn = sampleIdSpec fn := by
  unfold sampleId sampleIdSpec
  cases h : splitDash fn.data with
  | nil => simp
  | cons p0 t =>
    cases t with
    | nil => simp
    | cons p1 t2 => simp [List.getD]

theorem imageSuffix_eq_spec (fn : String) : imageSuffix fn = imageSuffixSpec fn := by
  unfold imageSuffix imageSuffixSpec
  cases h : searchImageDigits fn.data with
  | none => rfl
  | some raw =>
    by_cases hl : 2 ≤ raw.length
    · simp only [if_pos hl]
      rw [List.take_reverse, List.reverse_reverse]
    · simp only [if_neg hl, zfill2]

/-! Claim theorems. -/

/-- C3: after every successful write — the inference insert (which persists
the fields of `predict_scores`) and every correction update (which persists
the fields of `applyPayload`) — the persisted total equals the sum of the
four persisted score fields, within a rounding tolerance of 0.01 (in fact
exactly). -/
theorem total_matches_sum_on_writes :
    (∀ out : Fin 4 → ℚ,
        |(predict_scores out).total -
          ((predict_scores out).architecture + (predict_scores out).atrophy +
           (predict_scores out).complexes + (predict_scores out).fibrosis)| ≤ 1/100)
    ∧ (∀ (r : ImageScore) (p : ScorePayload),
        (applyPayload r p).score_total =
          (applyPayload r p).score_architecture + (applyPayload r p).score_atrophy +
          (applyPayload r p).score_complexes + (applyPayload r p).score_fibrosis) := by
  constructor
  · intro out
    rw [predict_scores_total_eq]
    simp
  · intro r p
    rfl

/-- C4 counterexample: the correction path performs no clamping — updating
`Fibrosis` of a stored record to 100 succeeds and persists 100, which exceeds
the per-dimension maximum `MAX_SCORES 3 = 4`.  The claim that every write
path keeps dimensions within `[0, max_i]` is therefore false. -/
theorem correction_persists_out_of_range_cex :
    (update_score demoStore 1 ⟨none, none, none, some 100⟩).result = .updated 103 ∧
    ((update_score demoStore 1 ⟨none, none, none, some 100⟩).store.rows.map
      (fun r => r.score_fibrosis)) = [100] ∧
    ¬ ((100 : ℚ) ≤ MAX_SCORES 3) := by
  with_unfolding_all decide

/-- C4 amended: every score dimension persisted by the inference insert lies
within `[0, max_i]` for the maxima `{4, 3, 3, 4}`; the correction update
persists the payload values verbatim, with no clamping. -/
theorem inference_clamped_correction_verbatim :
    (∀ (out : Fin 4 → ℚ) (i : Fin 4),
        0 ≤ scoreDim out i ∧ scoreDim out i ≤ MAX_SCORES i)
    ∧ (∀ (r : ImageScore) (p : ScorePayload),
        (applyPayload r p).score_architecture = p.architecture.getD r.score_architecture ∧
        (applyPayload r p).score_atrophy = p.atrophy.getD r.score_atrophy ∧
        (applyPayload r p).score_complexes = p.complexes.getD r.score_complexes ∧
        (applyPayload r p).score_fibrosis = p.fibrosis.getD r.score_fibrosis) :=
  ⟨scoreDim_bounds, fun _ _ => ⟨rfl, rfl, rfl, rfl⟩⟩

/-- C5 counterexample: the correction path does not quantize — updating
`Fibrosis` to 1.1 persists 1.1, which is not an integer multiple of 0.25.
The claim that every persisted dimension is a quarter multiple is therefore
false. -/
theorem correction_persists_non_quarter_cex :
    ((update_score demoStore 1 ⟨none, none, none, some (11/10)⟩).store.rows.map
      (fun r => r.score_fibrosis)) = [11/10] ∧
    ¬ ∃ n : ℤ, (11/10 : ℚ) = (n : ℚ)/4 := by
  constructor
  · with_unfolding_all decide
  · rintro ⟨n, hn⟩
    have hq : ((5 * n : ℤ) : ℚ) = 22 := by push_cast; linarith
    have h5 : (5 * n : ℤ) = 22 := by exact_mod_cast hq
    omega

/-- C5 amended: every dimension persisted by the inference path is an exact
multiple of 0.25, obtained by scaling the oracle output by the per-dimension
maximum, clamping into `[0, max_i]`, and rounding to the nearest quarter; the
correction path persists payload values verbatim (see the counterexample). -/
theorem inference_scores_quarter_quantized :
    ∀ (out : Fin 4 → ℚ) (i : Fin 4),
      (∃ n : ℤ, scoreDim out i = (n : ℚ)/4) ∧
      scoreDim out i = round_quarter (npClip (out i * MAX_SCORES i) 0 (MAX_SCORES i)) :=
  fun _ _ => ⟨round_quarter_form _, rfl⟩

/-- C6: identity resolution is a total function agreeing everywhere with the
spec's three-step description (split on `-` and join the first two segments
or `"UNKNOWN"`; last two digits of the first case-insensitive
`Image<digits>` match, zero-padded, `"00"` when absent; join with `-`), and
on `"S-4500-10X_Image0123_ch00.tif"` it yields serial number `"S-4500-23"`. -/
theorem identity_resolution_matches_spec :
    (∀ fn : String, resolveIdentity fn = resolveIdentitySpec fn)
    ∧ resolveIdentity "S-4500-10X_Image0123_ch00.tif" =
        { sample_id := "S-4500", serial_number := "S-4500-23" } := by
  constructor
  · intro fn
    unfold resolveIdentity resolveIdentitySpec
    rw [sampleId_eq_spec, imageSuffix_eq_spec]
  · decide

/-- C7: a correction writes only the score dimensions named in the payload —
each dimension becomes the payload value when present and keeps the stored
value otherwise, all non-score fields are unchanged, only the addressed row
changes in the store, and the returned `new_total` is the sum of the
post-update dimensions. -/
theorem correction_updates_only_payload_fields (s : Store) (db_id : ℕ) (p : ScorePayload)
    (r : ImageScore) (h : s.rows.find? (fun q => q.id == db_id) = some r) :
    (update_score s db_id p).result = .updated ((applyPayload r p).score_total) ∧
    (update_score s db_id p).store.rows =
      s.rows.map (fun q => if q.id = db_id then applyPayload r p else q) ∧
    (applyPayload r p).score_architecture = p.architecture.getD r.score_architecture ∧
    (applyPayload r p).score_atrophy = p.atrophy.getD r.score_atrophy ∧
    (applyPayload r p).score_complexes = p.complexes.getD r.score_complexes ∧
    (applyPayload r p).score_fibrosis = p.fibrosis.getD r.score_fibrosis ∧
    (applyPayload r p).filename = r.filename ∧
    (applyPayload r p).serial_number = r.serial_number ∧
    (applyPayload r p).sample_id = r.sample_id ∧
    (applyPayload r p).id = r.id ∧
    (applyPayload r p).score_total =
      (applyPayload r p).score_architecture + (applyPayload r p).score_atrophy +
      (applyPayload r p).score_complexes + (applyPayload r p).score_fibrosis := by
  unfold update_score
  rw [h]
  exact ⟨rfl, rfl, rfl, rfl, rfl, rfl, rfl, rfl, rfl, rfl, rfl⟩

/-- C7 witness, spec Scenario E: correcting the stored record with dimensions
`{1,1,1,1}` (total 4) by setting Fibrosis to 3.5 yields `new_total = 6.5`. -/
theorem correction_updates_only_payload_fields_witness :
    (update_score demoStore 1 ⟨none, none, none, some (7/2)⟩).result =
      .updated (13/2) := by
  have h := correction_updates_only_payload_fields demoStore 1
    ⟨none, none, none, some (7/2)⟩ demoRec (by with_unfolding_all decide)
  rw [h.1]
  with_unfolding_all decide

/-- C9: the correction fails with `NotFound` exactly when the id resolves to
no stored record, and in that case the store is unchanged. -/
theorem correction_not_found_iff (s : Store) (db_id : ℕ) (p : ScorePayload) :
    ((update_score s db_id p).result = .notFound ↔
      s.rows.find? (fun r => r.id == db_id) = none) ∧
    (s.rows.find? (fun r => r.id == db_id) = none →
      (update_score s db_id p).store = s) := by
  cases h : s.rows.find? (fun r => r.id == db_id) with
  | none => simp [update_score, h]
  | some r => simp [update_score, h]

/-- C9 witness, spec Scenario F: a correction against an id absent from the
store returns `NotFound` and leaves the store as it was. -/
theorem correction_not_found_iff_witness :
    (update_score demoStore 99999 ⟨none, none, none, some 2⟩).result = .notFound ∧
    (update_score demoStore 99999 ⟨none, none, none, some 2⟩).store = demoStore := by
  have h := correction_not_found_iff demoStore 99999 ⟨none, none, none, some 2⟩
  exact ⟨h.1.mpr (by with_unfolding_all decide), h.2 (by with_unfolding_all decide)⟩

/-- C8: each validation failure — unsupported extension, oversized payload,
oracle unavailable — rejects with its error before any repository access:
the store is returned unchanged and no inference runs. -/
theorem upload_validation_rejects_before_store (modelLoaded : Bool) (now : ℕ)
    (s : Store) (req : UploadRequest) :
    (hasTifExt (safeFilename req.filename) = false →
        upload modelLoaded now s req = ⟨.err .invalidFormat, s, false⟩) ∧
    (hasTifExt (safeFilename req.filename) = true → MAX_FILE_SIZE < req.size →
        upload modelLoaded now s req = ⟨.err .payloadTooLarge, s, false⟩) ∧
    (hasTifExt (safeFilename req.filename) = true → req.size ≤ MAX_FILE_SIZE →
        modelLoaded = false →
        upload modelLoaded now s req = ⟨.err .serviceUnavailable, s, false⟩) := by
  refine ⟨fun h1 => ?_, fun h1 h2 => ?_, fun h1 h2 h3 => ?_⟩
  · simp [upload, h1]
  · simp [upload, h1, h2]
  · simp [upload, h1, h3, Nat.not_lt.mpr h2]

/-- C8 witness: a `.jpg` upload is rejected 400, a 100MB-plus-one-byte `.tif`
upload is rejected 413, and an upload with the model unloaded is rejected
503 — each leaving the empty store empty. -/
theorem upload_validation_rejects_before_store_witness :
    upload true 0 ⟨1, []⟩ ⟨"x.jpg", 10, true, fun _ => 1⟩ =
      ⟨.err .invalidFormat, ⟨1, []⟩, false⟩ ∧
    upload true 0 ⟨1, []⟩ ⟨"x.tif", 104857601, true, fun _ => 1⟩ =
      ⟨.err .payloadTooLarge, ⟨1, []⟩, false⟩ ∧
    upload false 0 ⟨1, []⟩ ⟨"x.tif", 10, true, fun _ => 1⟩ =
      ⟨.err .serviceUnavailable, ⟨1, []⟩, false⟩ := by
  refine ⟨?_, ?_, ?_⟩
  · exact (upload_validation_rejects_before_store true 0 ⟨1, []⟩ _).1 (by decide)
  · exact (upload_validation_rejects_before_store true 0 ⟨1, []⟩ _).2.1
      (by decide) (by decide)
  · exact (upload_validation_rejects_before_store false 0 ⟨1, []⟩ _).2.2
      (by decide) (by decide) rfl

/-- C10: re-submitting a filename that already has a stored record with bytes
that do not decode as an image fails with the internal error (the preview is
regenerated from the newly uploaded bytes on every cache hit and its decode
failure is caught by the generic 500 handler), and the store — in particular
the stored record's score fields — is unchanged. -/
theorem cache_hit_decode_failure_rejects (now : ℕ) (s : Store) (req : UploadRequest)
    (rec : ImageScore)
    (hext : hasTifExt (safeFilename req.filename) = true)
    (hsz : req.size ≤ MAX_FILE_SIZE)
    (hfound : findByFilename s (safeFilename req.filename) = some rec)
    (hdec : req.decodable = false) :
    upload true now s req = ⟨.err .internalError, s, false⟩ := by
  simp [upload, hext, Nat.not_lt.mpr hsz, hfound, uploadHitPhase, hdec]

/-- C10 witness: re-uploading `demoRec`'s filename with undecodable bytes
returns the internal error and leaves `demoStore` unchanged. -/
theorem cache_hit_decode_failure_rejects_witness :
    upload true 9 demoStore ⟨"a-b_Image01.tif", 10, false, fun _ => 1⟩ =
      ⟨.err .internalError, demoStore, false⟩ :=
  cache_hit_decode_failure_rejects 9 demoStore ⟨"a-b_Image01.tif", 10, false, fun _ => 1⟩
    demoRec (by decide) (by decide) (by with_unfolding_all decide) rfl

/-- C2 counterexample: a lost race on the insert (`demoStore` already holds a
row for the filename at insert time, so `on_conflict_do_nothing` inserts
nothing) serves the loser's locally computed scores `⟨4,3,3,4,14⟩` — only
`db_id` is taken from the stored winning row, whose scores `⟨1,1,1,1,4⟩`
differ.  The claim that the response is built from the stored row's scores is
therefore false. -/
theorem lost_race_serves_local_scores_cex :
    uploadMissPhase "a-b_Image01.tif" true (fun _ => 1) 7 demoStore =
      ⟨.ok { filename := "a-b_Image01.tif", serial_number := "a-b_Image01.tif-01",
             sample_id := "a-b_Image01.tif", scores := ⟨4, 3, 3, 4, 14⟩, db_id := 1 },
       demoStore, true⟩ ∧
    demoStore.rows = [demoRec] ∧ demoRec.filename = "a-b_Image01.tif" ∧
    (⟨4, 3, 3, 4, 14⟩ : Scores) ≠
      ⟨demoRec.score_architecture, demoRec.score_atrophy, demoRec.score_complexes,
       demoRec.score_fibrosis, demoRec.score_total⟩ := by
  with_unfolding_all decide

/-- C2 amended: when the atomic insert reports a conflict (a row for the
filename already exists at insert time), no write happens — the winning
stored row is left intact and no blend is persisted — and the response's
`db_id` is the stored winning row's id, but its score fields are the loser's
locally computed `predict_scores` output, not the stored row's scores. -/
theorem lost_race_keeps_winner_row (fn : String) (out : Fin 4 → ℚ) (now : ℕ)
    (s : Store) (rec : ImageScore) (h : findByFilename s fn = some rec) :
    uploadMissPhase fn true out now s =
      ⟨.ok { filename := fn, serial_number := (resolveIdentity fn).serial_number,
             sample_id := (resolveIdentity fn).sample_id,
             scores := predict_scores out, db_id := rec.id },
       s, true⟩ := by
  have hfind : s.rows.find? (fun q => q.filename == fn) = some rec := h
  have hany : s.rows.any (fun q => q.filename == fn) = true := by
    rw [List.any_eq_true]
    have hp := List.find?_some hfind
    exact ⟨rec, List.mem_of_find?_eq_some hfind, hp⟩
  unfold uploadMissPhase insertIfAbsent findByFilename
  simp [hany, hfind]

/-- C2 amended witness: the race of the counterexample instantiates the
amended statement at `demoStore`. -/
theorem lost_race_keeps_winner_row_witness :
    uploadMissPhase "a-b_Image01.tif" true (fun _ => 1/3) 7 demoStore =
      ⟨.ok { filename := "a-b_Image01.tif",
             serial_number := (resolveIdentity "a-b_Image01.tif").serial_number,
             sample_id := (resolveIdentity "a-b_Image01.tif").sample_id,
             scores := predict_scores (fun _ => 1/3), db_id := 1 },
       demoStore, true⟩ :=
  lost_race_keeps_winner_row "a-b_Image01.tif" (fun _ => 1/3) 7 demoStore demoRec
    (by with_unfolding_all decide)

/-- When validation passes and the model is loaded, the upload is exactly the
lookup dispatch into the hit or miss branch. -/
theorem upload_valid_is_lookup (now : ℕ) (s : Store) (req : UploadRequest)
    (hext : hasTifExt (safeFilename req.filename) = true)
    (hsz : req.size ≤ MAX_FILE_SIZE) :
    upload true now s req =
      match findByFilename s (safeFilename req.filename) with
      | some rec => uploadHitPhase (safeFilename req.filename) rec req.decodable now s
      | none =>
          uploadMissPhase (safeFilename req.filename) req.decodable req.oracleOut now s := by
  simp [upload, hext, Nat.not_lt.mpr hsz]

/-- A cache miss on a genuinely fresh filename inserts exactly one new row,
with the store-assigned id, and answers with the locally computed scores. -/
theorem uploadMissPhase_fresh (fn : String) (out : Fin 4 → ℚ) (now : ℕ) (s : Store)
    (h : findByFilename s fn = none) :
    uploadMissPhase fn true out now s =
      ⟨.ok { filename := fn, serial_number := (resolveIdentity fn).serial_number,
             sample_id := (resolveIdentity fn).sample_id,
             scores := predict_scores out, db_id := s.nextId },
       ⟨s.nextId + 1, s.rows ++ [insertedRow fn out now s.nextId]⟩, true⟩ := by
  have hfind : s.rows.find? (fun q => q.filename == fn) = none := h
  have hany : s.rows.any (fun q => q.filename == fn) = false := by
    rw [List.any_eq_false]
    intro x hx
    simpa using List.find?_eq_none.mp hfind x hx
  unfold uploadMissPhase insertIfAbsent findByFilename insertedRow
  simp [hany, List.find?_append, hfind]

/-- Touching a record's timestamp changes no filename, hence no per-filename
row count. -/
theorem countP_filename_touch (s : Store) (i now : ℕ) (fn : String) :
    (touch s i now).rows.countP (fun r => r.filename == fn) =
      s.rows.countP (fun r => r.filename == fn) := by
  unfold touch
  rw [List.countP_map]
  apply List.countP_congr
  intro r _
  by_cases h : r.id = i <;> simp [h, Function.comp]

/-- C1: submitting the same (valid, decodable) filename twice starting from a
store without it: both submissions succeed, the second answers with exactly
the first submission's four score dimensions and Total, oracle inference is
skipped on the second submission (whatever the second oracle output would
have been), and the store holds exactly one row for the filename. -/
theorem cache_stability (fn : String) (sz₁ sz₂ now₁ now₂ : ℕ)
    (out₁ out₂ : Fin 4 → ℚ) (s : Store)
    (hext : hasTifExt (safeFilename fn) = true)
    (hsz₁ : sz₁ ≤ MAX_FILE_SIZE) (hsz₂ : sz₂ ≤ MAX_FILE_SIZE)
    (habsent : findByFilename s (safeFilename fn) = none) :
    ∃ env₁ env₂ : Envelope,
      (upload true now₁ s ⟨fn, sz₁, true, out₁⟩).result = .ok env₁ ∧
      (upload true now₂ (upload true now₁ s ⟨fn, sz₁, true, out₁⟩).store
          ⟨fn, sz₂, true, out₂⟩).result = .ok env₂ ∧
      env₂.scores = env₁.scores ∧
      (upload true now₂ (upload true now₁ s ⟨fn, sz₁, true, out₁⟩).store
          ⟨fn, sz₂, true, out₂⟩).ranInference = false ∧
      (upload true now₂ (upload true now₁ s ⟨fn, sz₁, true, out₁⟩).store
          ⟨fn, sz₂, true, out₂⟩).store.rows.countP
        (fun r => r.filename == safeFilename fn) = 1 := by
  have h1 : upload true now₁ s ⟨fn, sz₁, true, out₁⟩ =
      ⟨.ok { filename := safeFilename fn,
             serial_number := (resolveIdentity (safeFilename fn)).serial_number,
             sample_id := (resolveIdentity (safeFilename fn)).sample_id,
             scores := predict_scores out₁, db_id := s.nextId },
       ⟨s.nextId + 1, s.rows ++ [insertedRow (safeFilename fn) out₁ now₁ s.nextId]⟩,
       true⟩ := by
    rw [upload_valid_is_lookup now₁ s ⟨fn, sz₁, true, out₁⟩ hext hsz₁]
    simp only [habsent]
    exact uploadMissPhase_fresh (safeFilename fn) out₁ now₁ s habsent
  have hfound1 : findByFilename
      (⟨s.nextId + 1, s.rows ++ [insertedRow (safeFilename fn) out₁ now₁ s.nextId]⟩ : Store)
      (safeFilename fn) = some (insertedRow (safeFilename fn) out₁ now₁ s.nextId) := by
    unfold findByFilename
    rw [List.find?_append]
    rw [show s.rows.find? (fun q => q.filename == safeFilename fn) = none from habsent]
    simp [insertedRow]
  have h2 : upload true now₂
      (⟨s.nextId + 1, s.rows ++ [insertedRow (safeFilename fn) out₁ now₁ s.nextId]⟩ : Store)
      ⟨fn, sz₂, true, out₂⟩ =
      uploadHitPhase (safeFilename fn) (insertedRow (safeFilename fn) out₁ now₁ s.nextId)
        true now₂
        ⟨s.nextId + 1, s.rows ++ [insertedRow (safeFilename fn) out₁ now₁ s.nextId]⟩ := by
    rw [upload_valid_is_lookup now₂ _ ⟨fn, sz₂, true, out₂⟩ hext hsz₂]
    simp only [hfound1]
  have h0 : s.rows.countP (fun r => r.filename == safeFilename fn) = 0 :=
    List.countP_eq_zero.mpr (fun a ha => by
      simpa using List.find?_eq_none.mp habsent a ha)
  rw [h1]
  dsimp only
  rw [h2]
  dsimp only [uploadHitPhase]
  rw [if_neg (by simp)]
  refine ⟨_, _, rfl, rfl, rfl, rfl, ?_⟩
  rw [countP_filename_touch]
  dsimp only
  rw [List.countP_append, h0]
  simp [insertedRow]

/-- C1 witness: uploading `"a-b_Image01.tif"` twice into the empty store,
with different oracle outputs, skips inference the second time and leaves one
row for the filename. -/
theorem cache_stability_witness :
    (upload true 6 (upload true 5 ⟨1, []⟩ ⟨"a-b_Image01.tif", 10, true, fun _ => 1⟩).store
        ⟨"a-b_Image01.tif", 10, true, fun _ => 1/3⟩).ranInference = false ∧
    (upload true 6 (upload true 5 ⟨1, []⟩ ⟨"a-b_Image01.tif", 10, true, fun _ => 1⟩).store
        ⟨"a-b_Image01.tif", 10, true, fun _ => 1/3⟩).store.rows.countP
      (fun r => r.filename == safeFilename "a-b_Image01.tif") = 1 := by
  obtain ⟨e₁, e₂, g1, g2, g3, g4, g5⟩ := cache_stability "a-b_Image01.tif" 10 10 5 6
    (fun _ => 1) (fun _ => 1/3) ⟨1, []⟩ (by decide) (by decide) (by decide) (by decide)
  exact ⟨g4, g5⟩

end ImageScoring
